import Mathlib

/-!
# Verification of the Automatic AI Stock and Crypto Trader core

Shallow embedding, over exact rationals, of the risk managers, the trend
analyzer, the recommendation lifecycle, the crypto executor's fill
settlement and the orchestrator's regime detection, translated from
`backend/app/services/`.  Python `float` arithmetic is modelled by `ℚ`
(the spec and the claims reason in real arithmetic); Python `None` by
`Option`; Python truthiness of an optional number (`if x:`) by
`x = some v ∧ v ≠ 0`.
-/

/-- Python truthiness of an `Optional[float]`: `None` and `0.0` are falsy. -/
def pyTruthy (x : Option ℚ) : Bool :=
  match x with
  | none => false
  | some v => v ≠ 0

/-- Python `x or d` for an `Optional[float] x`: falsy (`None`/`0.0`) falls to `d`. -/
def pyOr (x : Option ℚ) (d : ℚ) : ℚ :=
  match x with
  | none => d
  | some v => if v ≠ 0 then v else d

/-- The last `n` elements of a list (Python `xs[-n:]`). -/
def lastN (xs : List ℚ) (n : ℕ) : List ℚ :=
  xs.drop (xs.length - n)

section RiskManagers

/-!
## Risk managers

`gem_hunter/risk_manager.py` (equities) and `crypto_hunter/risk_manager.py`.
Only the configuration fields that the embedded methods read are kept.
The trade-history defaulting path of `kelly_fraction` (all three arguments
`None`) is not modelled; the embedded function takes the three explicit
arguments, as in the claims.
-/

/-- Configuration state of `gem_hunter.risk_manager.RiskManager`
(`__init__`, with the `config.get` defaults). -/
structure RiskManager where
  allocated_capital : ℚ
  max_positions : ℕ
  max_position_pct : ℚ
  kelly_multiplier : ℚ
  daily_loss_limit_pct : ℚ
  stop_loss_pct : ℚ
  take_profit_pct : ℚ
  deriving Repr, DecidableEq

/-- The equities risk manager built from an empty config dict
(every `config.get` falls to its default). -/
def gemDefault : RiskManager :=
  ⟨10000, 5, 25/100, 1/2, 5/100, 8/100, 20/100⟩

/-- Configuration state of `crypto_hunter.risk_manager.CryptoRiskManager`
(`__init__`, with the `config.get` defaults). -/
structure CryptoRiskManager where
  allocated_capital : ℚ
  max_positions : ℕ
  max_position_pct : ℚ
  kelly_multiplier : ℚ
  daily_loss_limit_pct : ℚ
  stop_loss_pct : ℚ
  take_profit_pct : ℚ
  max_hold_hours : ℚ
  deriving Repr, DecidableEq

/-- The crypto risk manager built from an empty config dict. -/
def cryptoDefault : CryptoRiskManager :=
  ⟨5000, 5, 20/100, 1/2, 5/100, 10/100, 25/100, 168⟩

/-- `RiskManager.kelly_fraction` (equities), explicit-argument path. -/
def RiskManager.kelly_fraction (rm : RiskManager)
    (win_rate avg_win avg_loss : ℚ) : ℚ :=
  let avg_loss := if avg_loss ≤ 0 then rm.stop_loss_pct else avg_loss
  let b := avg_win / avg_loss
  let p := win_rate
  let q := 1 - p
  let kelly := (b * p - q) / b
  let kelly := kelly * rm.kelly_multiplier
  max 0 (min kelly rm.max_position_pct)

/-- `CryptoRiskManager.kelly_fraction`, explicit-argument path. -/
def CryptoRiskManager.kelly_fraction (rm : CryptoRiskManager)
    (win_rate avg_win avg_loss : ℚ) : ℚ :=
  let avg_loss := if avg_loss ≤ 0 then rm.stop_loss_pct else avg_loss
  let b := avg_win / avg_loss
  let p := win_rate
  let q := 1 - p
  let kelly := (b * p - q) / b
  let kelly := kelly * rm.kelly_multiplier
  let max_kelly := min rm.max_position_pct (15/100)
  max 0 (min kelly max_kelly)

/-- `RiskManager.calculate_stop_loss` (equities): `if atr:` is Python
truthiness on the optional argument. -/
def RiskManager.calculate_stop_loss (rm : RiskManager)
    (entry_price : ℚ) (atr : Option ℚ) : ℚ :=
  if pyTruthy atr then entry_price - 2 * atr.getD 0
  else entry_price * (1 - rm.stop_loss_pct)

/-- `RiskManager.calculate_take_profit` (equities). -/
def RiskManager.calculate_take_profit (rm : RiskManager)
    (entry_price : ℚ) (stop_loss : Option ℚ) : ℚ :=
  if pyTruthy stop_loss then
    let risk := entry_price - stop_loss.getD 0
    entry_price + risk * (25/10)
  else entry_price * (1 + rm.take_profit_pct)

/-- `RiskManager.should_exit` (equities).  The method reads none of the
manager's fields; `days_held` and `max_hold_days` are `int` parameters. -/
def RiskManager.should_exit (_rm : RiskManager)
    (current_price _entry_price stop_loss take_profit : ℚ)
    (days_held max_hold_days : ℤ) : Bool × Option String :=
  if current_price ≤ stop_loss then (true, some "stop_loss")
  else if current_price ≥ take_profit then (true, some "take_profit")
  else if days_held ≥ max_hold_days then (true, some "max_hold_days")
  else (false, none)

/-- `CryptoRiskManager.should_exit`. -/
def CryptoRiskManager.should_exit (rm : CryptoRiskManager)
    (current_price entry_price stop_loss take_profit hours_held : ℚ) :
    Bool × Option String :=
  if current_price ≤ stop_loss then (true, some "stop_loss")
  else if current_price ≥ take_profit then (true, some "take_profit")
  else if hours_held ≥ rm.max_hold_hours then (true, some "max_hold_time")
  else
    let pnl_pct := (current_price - entry_price) / entry_price
    if pnl_pct > 15/100 then
      if current_price ≤ entry_price * (101/100) then (true, some "trailing_stop")
      else (false, none)
    else (false, none)

/-- The raw Kelly expression as the spec words it: b = W/L (L floored to
the stop-loss default when ≤ 0), k = (b·p − (1−p))/b.  Written from the
spec, to be compared with the code's `kelly_fraction`. -/
def spec_kelly_raw (p W L stop_floor : ℚ) : ℚ :=
  let L' := if L ≤ 0 then stop_floor else L
  ((W / L') * p - (1 - p)) / (W / L')

end RiskManagers

section Recommendations

/-!
## Recommendation lifecycle

`recommendation_service.py`.  The SQLAlchemy session is modelled as a list
of recommendation rows; each service method returns its Python result
together with the list after commit.  Times (`datetime.utcnow()`,
`expires_at`) are rationals.  A broker exception inside
`execute_recommendation` is modelled by `place_spread_order` returning
`none` (Python then answers `{"success": False, ...}` either way and the
row is not mutated).
-/

/-- `models.agent.RecommendationStatus`. -/
inductive RecommendationStatus
  | pending
  | approved
  | rejected
  | executed
  | expired
  deriving Repr, DecidableEq

/-- A `TradeRecommendation` row, restricted to the columns the lifecycle
methods read or write. -/
structure TradeRecommendation where
  id : ℕ
  status : RecommendationStatus
  expires_at : ℚ
  action : String
  short_strike : Option ℚ
  long_strike : Option ℚ
  expiration : Option String
  contracts : Option ℕ
  estimated_credit : Option ℚ
  approved_at : Option ℚ
  rejected_at : Option ℚ
  executed_at : Option ℚ
  rejection_reason : Option String
  order_id : Option String
  execution_price : Option ℚ
  deriving Repr, DecidableEq

/-- The mock IB client, as seen by `execute_recommendation`:
connection state, the outcome of a `connect()` attempt, and the order id
a `place_spread_order` call returns (`none` = placement raised). -/
structure IBClientModel where
  is_connected : Bool
  connect_ok : Bool
  place_spread_order :
    Option ℚ → Option ℚ → Option String → String → Option ℕ → Option ℚ →
    Option String

/-- Result dict of `execute_recommendation`. -/
structure ExecResult where
  success : Bool
  error : Option String
  order_id : Option String
  execution_price : Option ℚ
  deriving Repr, DecidableEq

/-- `get_recommendation_by_id`: the row with the given primary key. -/
def get_recommendation_by_id (db : List TradeRecommendation) (i : ℕ) :
    Option TradeRecommendation :=
  db.find? (fun r => r.id == i)

/-- Commit of a mutated ORM row: replace the row with primary key `i`. -/
def commitRow (db : List TradeRecommendation) (i : ℕ)
    (r' : TradeRecommendation) : List TradeRecommendation :=
  db.map (fun r => if r.id == i then r' else r)

/-- `approve_recommendation(recommendation_id)` at time `now`. -/
def approve_recommendation (db : List TradeRecommendation) (now : ℚ)
    (i : ℕ) : Option TradeRecommendation × List TradeRecommendation :=
  match get_recommendation_by_id db i with
  | none => (none, db)
  | some r =>
    if r.status ≠ RecommendationStatus.pending then (none, db)
    else if r.expires_at < now then
      let r' := { r with status := RecommendationStatus.expired }
      (none, commitRow db i r')
    else
      let r' := { r with status := RecommendationStatus.approved,
                         approved_at := some now }
      (some r', commitRow db i r')

/-- `reject_recommendation(recommendation_id, reason)` at time `now`. -/
def reject_recommendation (db : List TradeRecommendation) (now : ℚ)
    (i : ℕ) (reason : Option String) :
    Option TradeRecommendation × List TradeRecommendation :=
  match get_recommendation_by_id db i with
  | none => (none, db)
  | some r =>
    if r.status ≠ RecommendationStatus.pending then (none, db)
    else
      let r' := { r with status := RecommendationStatus.rejected,
                         rejected_at := some now,
                         rejection_reason := reason }
      (some r', commitRow db i r')

/-- The order id and execution price `execute_recommendation` derives for
a given action, `none` when the action is unknown.  `close_put_spread`
and `open_long_call` are the simulated paths of the source. -/
def executeAction (ib : IBClientModel) (r : TradeRecommendation) :
    Option (Option String × Option ℚ) :=
  if r.action = "open_put_spread" then
    some (ib.place_spread_order r.short_strike r.long_strike r.expiration
            "P" r.contracts r.estimated_credit, r.estimated_credit)
  else if r.action = "close_put_spread" then
    some (some "simulated_close", none)
  else if r.action = "open_call_spread" then
    some (ib.place_spread_order r.short_strike r.long_strike r.expiration
            "C" r.contracts r.estimated_credit, r.estimated_credit)
  else if r.action = "open_long_call" then
    some (some "simulated_long_call", none)
  else none

/-- Python truthiness of the `order_id` value (`if order_id:`). -/
def pyTruthyStr (s : Option String) : Bool :=
  match s with
  | none => false
  | some v => v ≠ ""

/-- `execute_recommendation(recommendation_id)` at time `now`. -/
def execute_recommendation (db : List TradeRecommendation) (now : ℚ)
    (ib : IBClientModel) (i : ℕ) : ExecResult × List TradeRecommendation :=
  match get_recommendation_by_id db i with
  | none => (⟨false, some "Recommendation not found", none, none⟩, db)
  | some r =>
    if r.status ≠ RecommendationStatus.approved then
      (⟨false, some "Recommendation must be approved first", none, none⟩, db)
    else if ¬ ib.is_connected ∧ ¬ ib.connect_ok then
      (⟨false, some "Failed to connect to Interactive Brokers", none, none⟩, db)
    else
      match executeAction ib r with
      | none => (⟨false, some "Unknown action", none, none⟩, db)
      | some (oid, price) =>
        if pyTruthyStr oid then
          let r' := { r with status := RecommendationStatus.executed,
                             executed_at := some now,
                             order_id := oid,
                             execution_price := price }
          (⟨true, none, oid, price⟩, commitRow db i r')
        else
          (⟨false, some "Order placement failed", none, none⟩, db)

/-- `expire_old_recommendations()` at time `now`: the bulk
`UPDATE ... WHERE status = pending AND expires_at < now`.  Returns the
updated table and the rowcount. -/
def expire_old_recommendations (db : List TradeRecommendation) (now : ℚ) :
    List TradeRecommendation × ℕ :=
  (db.map (fun r =>
      if r.status = RecommendationStatus.pending ∧ r.expires_at < now then
        { r with status := RecommendationStatus.expired }
      else r),
   db.countP (fun r =>
      r.status = RecommendationStatus.pending ∧ r.expires_at < now))

end Recommendations

section Orchestrator

/-!
## Regime detection

`orchestrator.py::detect_regime`.  The coroutine first loads the current
regime row and a market snapshot; the decision after those awaits is a
pure function of the regime row, the observed VIX and QQQ price, the
orchestrator's `last_short_put_strike` and the settings, embedded here.
-/

/-- `models.agent.RegimeType`. -/
inductive RegimeType
  | normal_bull
  | defense_trigger
  | recovery_mode
  | recovery_complete
  deriving Repr, DecidableEq

/-- The active `Regime` row, restricted to what `detect_regime` reads. -/
structure Regime where
  regime_type : RegimeType
  recovery_strike : Option ℚ
  deriving Repr, DecidableEq

/-- `core.config.Settings`, restricted to `VIX_SHUTDOWN_THRESHOLD`. -/
structure Settings where
  VIX_SHUTDOWN_THRESHOLD : ℚ
  deriving Repr, DecidableEq

/-- The settings defaults (`VIX_SHUTDOWN_THRESHOLD: float = 45.0`). -/
def settingsDefault : Settings := ⟨45⟩

/-- `OrchestratorService.detect_regime`, given the loaded regime row and
the market snapshot.  `if current_regime.recovery_strike and ...` and
`if self.last_short_put_strike and ...` are Python truthiness. -/
def detect_regime (s : Settings) (current_regime : Option Regime)
    (vix qqq_price : ℚ) (last_short_put_strike : Option ℚ) : RegimeType :=
  if vix > s.VIX_SHUTDOWN_THRESHOLD then RegimeType.defense_trigger
  else
    match current_regime with
    | none => RegimeType.normal_bull
    | some cr =>
      if cr.regime_type = RegimeType.recovery_mode then
        if pyTruthy cr.recovery_strike ∧ qqq_price > cr.recovery_strike.getD 0 then
          RegimeType.recovery_complete
        else RegimeType.recovery_mode
      else if pyTruthy last_short_put_strike ∧
              qqq_price < last_short_put_strike.getD 0 then
        RegimeType.defense_trigger
      else RegimeType.normal_bull

end Orchestrator

section Executor

/-!
## Crypto executor fill settlement

`crypto_hunter/executor.py`.  `_wait_for_fill` polls `get_order` every
2 s until a terminal status or the timeout, then fetches a final status;
the broker's successive answers are an oracle `ℕ → Option CryptoOrder`
(`none` = the request raised).  The tail of `execute_entry` — everything
after `filled_order = await self._wait_for_fill(order.id)` — is embedded
as `execute_entry_settle`, which also records every `cancel_order`
request the code issues.
-/

/-- `robinhood_client.CryptoOrder`, restricted to the fields the executor
reads. -/
structure CryptoOrder where
  id : String
  status : String
  quantity : ℚ
  filled_quantity : ℚ
  filled_price : Option ℚ
  deriving Repr, DecidableEq

/-- `executor.CryptoOrderStatus`. -/
inductive CryptoOrderStatus
  | pending
  | submitted
  | filled
  | partially_filled
  | cancelled
  | rejected
  | failed
  deriving Repr, DecidableEq

/-- `executor.CryptoOrderResult` (the `timestamp` field, `datetime.now()`,
is not modelled). -/
structure CryptoOrderResult where
  symbol : String
  side : String
  order_type : String
  requested_quantity : ℚ
  filled_quantity : ℚ
  filled_price : Option ℚ
  status : CryptoOrderStatus
  order_id : Option String
  message : String
  deriving Repr, DecidableEq

/-- The statuses on which `_wait_for_fill` returns early. -/
def terminalStatus (s : String) : Bool :=
  s = "filled" ∨ s = "canceled" ∨ s = "failed" ∨ s = "rejected"

/-- The polling loop of `_wait_for_fill`: `n` remaining iterations of
`while elapsed < timeout`, polling `get_order` at tick `k`; when the fuel
runs out, the final `get_order` after the timeout. -/
def wait_for_fill_go (get_order : ℕ → Option CryptoOrder) :
    ℕ → ℕ → Option CryptoOrder
  | 0, k => get_order k
  | n + 1, k =>
    match get_order k with
    | some o =>
      if terminalStatus o.status then some o
      else wait_for_fill_go get_order n (k + 1)
    | none => wait_for_fill_go get_order n (k + 1)

/-- `CryptoExecutor._wait_for_fill` with timeout `timeout` seconds and the
source's 2-second polling interval: `⌈timeout / 2⌉` loop iterations, then
the final fetch. -/
def wait_for_fill (get_order : ℕ → Option CryptoOrder) (timeout : ℕ) :
    Option CryptoOrder :=
  wait_for_fill_go get_order ((timeout + 1) / 2) 0

/-- The tail of `CryptoExecutor.execute_entry`: dispatch on the outcome of
`_wait_for_fill` for the placed order.  The second component lists the
ids for which the code calls `self.client.cancel_order`.  Numeric
interpolation inside the partial-fill message f-string is elided. -/
def execute_entry_settle (symbol : String) (quantity : ℚ)
    (order_type : String) (placed : CryptoOrder)
    (filled_order : Option CryptoOrder) :
    CryptoOrderResult × List String :=
  match filled_order with
  | some o =>
    if o.status = "filled" then
      (⟨symbol, "buy", order_type, quantity, o.filled_quantity,
        o.filled_price, CryptoOrderStatus.filled, some o.id,
        "Order filled successfully"⟩, [])
    else if o.filled_quantity > 0 then
      (⟨symbol, "buy", order_type, quantity, o.filled_quantity,
        o.filled_price, CryptoOrderStatus.partially_filled, some o.id,
        "Partial fill"⟩, [])
    else
      (⟨symbol, "buy", order_type, quantity, 0, none,
        CryptoOrderStatus.cancelled, some placed.id,
        "Order timed out, cancelled"⟩,
       if placed.id ≠ "" then [placed.id] else [])
  | none =>
    (⟨symbol, "buy", order_type, quantity, 0, none,
      CryptoOrderStatus.cancelled, some placed.id,
      "Order timed out, cancelled"⟩,
     if placed.id ≠ "" then [placed.id] else [])

end Executor

section TrendAnalyzerSection

/-!
## Trend analyzer

`crypto_hunter/trend_analyzer.py`.  Everything is pure; prices are `ℚ`.
`float ** 0.5` in the Bollinger computation has no exact `ℚ` counterpart,
so the analysis is parameterised by the square-root oracle `sqrtO` (none
of the verified claims depends on its values).  `datetime.now()`
timestamps and numeric interpolation inside description f-strings are
elided.
-/

/-- `trend_analyzer.TrendDirection`. -/
inductive TrendDirection
  | bullish
  | bearish
  | neutral
  deriving Repr, DecidableEq

/-- The string value of a `TrendDirection` member. -/
def TrendDirection.value : TrendDirection → String
  | TrendDirection.bullish => "bullish"
  | TrendDirection.bearish => "bearish"
  | TrendDirection.neutral => "neutral"

/-- `trend_analyzer.TrendSignal`. -/
structure TrendSignal where
  indicator : String
  signal : String
  value : ℚ
  description : String
  deriving Repr, DecidableEq

/-- `trend_analyzer.TrendAnalysis` (timestamp elided). -/
structure TrendAnalysis where
  symbol : String
  direction : TrendDirection
  strength : ℚ
  score : ℚ
  current_price : ℚ
  support_levels : List ℚ
  resistance_levels : List ℚ
  ema_9 : Option ℚ
  ema_21 : Option ℚ
  ema_50 : Option ℚ
  ema_200 : Option ℚ
  rsi : Option ℚ
  macd_value : Option ℚ
  macd_signal : Option ℚ
  macd_histogram : Option ℚ
  bb_upper : Option ℚ
  bb_middle : Option ℚ
  bb_lower : Option ℚ
  signals : List TrendSignal
  summary : String
  deriving Repr, DecidableEq

/-- `TrendAnalyzer.__init__` configuration (with `config.get` defaults). -/
structure TrendAnalyzerConfig where
  rsi_oversold : ℚ
  rsi_overbought : ℚ
  deriving Repr, DecidableEq

/-- The analyzer built from an empty config dict. -/
def trendConfigDefault : TrendAnalyzerConfig := ⟨30, 70⟩

namespace TrendAnalyzer

/-- `_calculate_ema`: SMA seed over the first `period` points, then the
exponential recurrence over the rest. -/
def calculate_ema (prices : List ℚ) (period : ℕ) : Option ℚ :=
  if prices.length < period then none
  else
    let multiplier : ℚ := 2 / (period + 1)
    let seed := (prices.take period).sum / period
    some ((prices.drop period).foldl
      (fun ema price => price * multiplier + ema * (1 - multiplier)) seed)

/-- `_calculate_rsi`. -/
def calculate_rsi (prices : List ℚ) (period : ℕ) : Option ℚ :=
  if prices.length < period + 1 then none
  else
    let deltas := (prices.drop 1).zipWith (fun a b => a - b) prices
    let gains := deltas.map (fun d => if d > 0 then d else 0)
    let losses := deltas.map (fun d => if d < 0 then -d else 0)
    let avg_gain := (lastN gains period).sum / period
    let avg_loss := (lastN losses period).sum / period
    if avg_loss = 0 then some 100
    else
      let rs := avg_gain / avg_loss
      some (100 - 100 / (1 + rs))

/-- `_calculate_macd` with the source's 0.9×macd signal-line
approximation. -/
def calculate_macd (prices : List ℚ) (fast slow signal : ℕ) :
    Option ℚ × Option ℚ × Option ℚ :=
  if prices.length < slow + signal then (none, none, none)
  else
    match calculate_ema prices fast, calculate_ema prices slow with
    | some ema_fast, some ema_slow =>
      let macd_line := ema_fast - ema_slow
      let signal_line := macd_line * (9/10)
      (some macd_line, some signal_line, some (macd_line - signal_line))
    | _, _ => (none, none, none)

/-- `_calculate_bollinger_bands`; population standard deviation through
the square-root oracle. -/
def calculate_bollinger_bands (sqrtO : ℚ → ℚ) (prices : List ℚ)
    (period : ℕ) (std_dev : ℚ) : Option ℚ × Option ℚ × Option ℚ :=
  if prices.length < period then (none, none, none)
  else
    let recent := lastN prices period
    let middle := recent.sum / (period : ℚ)
    let variance := (recent.map (fun p => (p - middle) ^ 2)).sum / (period : ℚ)
    let std := sqrtO variance
    (some (middle + std * std_dev), some middle, some (middle - std * std_dev))

/-- The interior points that strictly undercut both neighbours
(`prices[i] < prices[i-1] and prices[i] < prices[i+1]`). -/
def localMinima (prices : List ℚ) : List ℚ :=
  (prices.zip ((prices.drop 1).zip (prices.drop 2))).filterMap
    (fun x => if x.2.1 < x.1 ∧ x.2.1 < x.2.2 then some x.2.1 else none)

/-- The interior points that strictly exceed both neighbours. -/
def localMaxima (prices : List ℚ) : List ℚ :=
  (prices.zip ((prices.drop 1).zip (prices.drop 2))).filterMap
    (fun x => if x.2.1 > x.1 ∧ x.2.1 > x.2.2 then some x.2.1 else none)

/-- `_find_support_levels`. -/
def find_support_levels (prices : List ℚ) (num_levels : ℕ) : List ℚ :=
  if prices.length < 10 then []
  else
    let minima := localMinima prices
    if minima = [] then
      match prices with
      | [] => []
      | p :: ps => [ps.foldl min p]
    else (minima.mergeSort (fun a b => a ≤ b)).take num_levels

/-- `_find_resistance_levels`. -/
def find_resistance_levels (prices : List ℚ) (num_levels : ℕ) : List ℚ :=
  if prices.length < 10 then []
  else
    let maxima := localMaxima prices
    if maxima = [] then
      match prices with
      | [] => []
      | p :: ps => [ps.foldl max p]
    else (maxima.mergeSort (fun a b => b ≤ a)).take num_levels

/-- `_determine_trend`. -/
def determine_trend (signals : List TrendSignal) : TrendDirection × ℚ :=
  if signals = [] then (TrendDirection.neutral, 0)
  else
    let bullish_count := signals.countP (fun s => s.signal = "bullish")
    let bearish_count := signals.countP (fun s => s.signal = "bearish")
    let total := signals.length
    if bullish_count > bearish_count then
      (TrendDirection.bullish, (bullish_count : ℚ) / total * 100)
    else if bearish_count > bullish_count then
      (TrendDirection.bearish, (bearish_count : ℚ) / total * 100)
    else
      (TrendDirection.neutral, 50)

/-- `_calculate_score` (the `direction` parameter is unused in the
source as well). -/
def calculate_score (signals : List TrendSignal)
    (_direction : TrendDirection) (strength : ℚ) : ℚ :=
  if signals = [] then 50
  else
    let bullish_count := signals.countP (fun s => s.signal = "bullish")
    let total := signals.length
    let base_score := 50 + ((bullish_count : ℚ) / total - 1/2) * 100
    let score := base_score * (1/2 + strength / 200)
    max 0 (min 100 score)

/-- `_generate_summary`. -/
def generate_summary (direction : TrendDirection) (strength : ℚ)
    (signals : List TrendSignal) : String :=
  let strength_desc :=
    if strength < 40 then "weak"
    else if strength < 70 then "moderate"
    else "strong"
  let bullish := signals.filter (fun s => s.signal = "bullish")
  let bearish := signals.filter (fun s => s.signal = "bearish")
  let summary := strength_desc.capitalize ++ " " ++ direction.value ++ " trend. "
  let summary :=
    if bullish ≠ [] then
      summary ++ "Bullish signals: " ++
        String.intercalate ", " (bullish.map (fun s => s.indicator)) ++ ". "
    else summary
  let summary :=
    if bearish ≠ [] then
      summary ++ "Bearish signals: " ++
        String.intercalate ", " (bearish.map (fun s => s.indicator)) ++ ". "
    else summary
  summary.trim

/-- `_empty_analysis`. -/
def empty_analysis (symbol : String) (price : ℚ) : TrendAnalysis :=
  { symbol := symbol
    direction := TrendDirection.neutral
    strength := 0
    score := 50
    current_price := price
    support_levels := []
    resistance_levels := []
    ema_9 := none
    ema_21 := none
    ema_50 := none
    ema_200 := none
    rsi := none
    macd_value := none
    macd_signal := none
    macd_histogram := none
    bb_upper := none
    bb_middle := none
    bb_lower := none
    signals := []
    summary := "Insufficient data for trend analysis" }

/-- `TrendAnalyzer.analyze` (the unused `volumes` argument is kept). -/
def analyze (cfg : TrendAnalyzerConfig) (sqrtO : ℚ → ℚ) (symbol : String)
    (prices : List ℚ) (_volumes : Option (List ℚ))
    (current_price : Option ℚ) : TrendAnalysis :=
  if prices = [] ∨ prices.length < 21 then
    empty_analysis symbol (pyOr current_price 0)
  else
    let current := pyOr current_price (prices.getLastD 0)
    let ema_9 := calculate_ema prices 9
    let ema_21 := calculate_ema prices 21
    let ema_50 := if prices.length ≥ 50 then calculate_ema prices 50 else none
    let ema_200 := if prices.length ≥ 200 then calculate_ema prices 200 else none
    let signals : List TrendSignal := []
    let signals :=
      if pyTruthy ema_9 ∧ pyTruthy ema_21 then
        if ema_9.getD 0 > ema_21.getD 0 then
          signals ++ [⟨"EMA Cross", "bullish", ema_9.getD 0 - ema_21.getD 0,
                       "EMA 9 above EMA 21"⟩]
        else
          signals ++ [⟨"EMA Cross", "bearish", ema_9.getD 0 - ema_21.getD 0,
                       "EMA 9 below EMA 21"⟩]
      else signals
    let signals :=
      if pyTruthy ema_50 then
        if current > ema_50.getD 0 then
          signals ++ [⟨"Price vs EMA50", "bullish",
                       (current - ema_50.getD 0) / ema_50.getD 0 * 100,
                       "Price above EMA 50"⟩]
        else
          signals ++ [⟨"Price vs EMA50", "bearish",
                       (current - ema_50.getD 0) / ema_50.getD 0 * 100,
                       "Price below EMA 50"⟩]
      else signals
    let rsi := calculate_rsi prices 14
    let signals :=
      if pyTruthy rsi then
        if rsi.getD 0 < cfg.rsi_oversold then
          signals ++ [⟨"RSI", "bullish", rsi.getD 0, "RSI oversold"⟩]
        else if rsi.getD 0 > cfg.rsi_overbought then
          signals ++ [⟨"RSI", "bearish", rsi.getD 0, "RSI overbought"⟩]
        else
          signals ++ [⟨"RSI", "neutral", rsi.getD 0, "RSI neutral"⟩]
      else signals
    let macd := calculate_macd prices 12 26 9
    let signals :=
      match macd.1, macd.2.1 with
      | some macd_value, some macd_sig =>
        if macd_value > macd_sig then
          signals ++ [⟨"MACD", "bullish", pyOr macd.2.2 0,
                       "MACD above signal line"⟩]
        else
          signals ++ [⟨"MACD", "bearish", pyOr macd.2.2 0,
                       "MACD below signal line"⟩]
      | _, _ => signals
    let bb := calculate_bollinger_bands sqrtO prices 20 2
    let signals :=
      if pyTruthy bb.2.2 ∧ pyTruthy bb.1 then
        let bb_position :=
          if bb.1.getD 0 ≠ bb.2.2.getD 0 then
            (current - bb.2.2.getD 0) / (bb.1.getD 0 - bb.2.2.getD 0)
          else 1/2
        if bb_position < 2/10 then
          signals ++ [⟨"Bollinger Bands", "bullish", bb_position,
                       "Price near lower Bollinger Band"⟩]
        else if bb_position > 8/10 then
          signals ++ [⟨"Bollinger Bands", "bearish", bb_position,
                       "Price near upper Bollinger Band"⟩]
        else signals
      else signals
    let support_levels := find_support_levels prices 3
    let resistance_levels := find_resistance_levels prices 3
    let ds := determine_trend signals
    let score := calculate_score signals ds.1 ds.2
    let summary := generate_summary ds.1 ds.2 signals
    { symbol := symbol
      direction := ds.1
      strength := ds.2
      score := score
      current_price := current
      support_levels := support_levels
      resistance_levels := resistance_levels
      ema_9 := ema_9
      ema_21 := ema_21
      ema_50 := ema_50
      ema_200 := ema_200
      rsi := rsi
      macd_value := macd.1
      macd_signal := macd.2.1
      macd_histogram := macd.2.2
      bb_upper := bb.1
      bb_middle := bb.2.1
      bb_lower := bb.2.2
      signals := signals
      summary := summary }

end TrendAnalyzer

/-- The strength the spec's words assign — max(bull_count, bear_count) /
total × 100, the tie case included.  Written from the spec, to be
compared with `TrendAnalyzer.determine_trend`. -/
def spec_strength (signals : List TrendSignal) : ℚ :=
  let bull := signals.countP (fun s => s.signal = "bullish")
  let bear := signals.countP (fun s => s.signal = "bearish")
  ((max bull bear : ℕ) : ℚ) / signals.length * 100

end TrendAnalyzerSection

section Fixtures

/-!
## Concrete fixtures

Closed inputs used by the per-claim witnesses and counterexamples.
-/

/-- An already-approved recommendation (used against the approve gate). -/
def c3Approved : TradeRecommendation :=
  ⟨1, RecommendationStatus.approved, 10, "open_put_spread", some 550,
   some 525, some "20261218", some 1, some (6/10), none, none, none, none,
   none, none⟩

/-- A connected broker stub whose spread placement always returns id "IB1". -/
def c3Broker : IBClientModel :=
  ⟨true, true, fun _ _ _ _ _ _ => some "IB1"⟩

/-- An approved recommendation whose expiry is already past. -/
def c4ApprovedStale : TradeRecommendation :=
  ⟨2, RecommendationStatus.approved, 0, "open_put_spread", none, none,
   none, none, none, none, none, none, none, none, none⟩

/-- A pending recommendation whose expiry is already past. -/
def c4PendingStale : TradeRecommendation :=
  ⟨3, RecommendationStatus.pending, 0, "open_put_spread", none, none,
   none, none, none, none, none, none, none, none, none⟩

/-- A pending recommendation expiring at time 1. -/
def c10Pending : TradeRecommendation :=
  ⟨7, RecommendationStatus.pending, 1, "open_put_spread", none, none,
   none, none, none, none, none, none, none, none, none⟩

/-- The order as placed: quantity 2, nothing filled yet. -/
def c5Placed : CryptoOrder := ⟨"ord1", "open", 2, 0, none⟩

/-- The same order as the broker reports it after the fill timeout:
1 of 2 filled at 50, still open. -/
def c5Waited : CryptoOrder := ⟨"ord1", "open", 2, 1, some 50⟩

/-- A lone neutral indicator signal. -/
def c7Neutral : TrendSignal := ⟨"RSI", "neutral", 50, "RSI neutral"⟩

/-- A lone bullish indicator signal. -/
def c7Bullish : TrendSignal := ⟨"MACD", "bullish", 1, "MACD above signal line"⟩

end Fixtures

/-!
## Claims

One theorem per claim (with a counterexample where the claim fails on the
code, and a closed witness where the theorem carries hypotheses).
-/

/-- C1, counterexample.  On the equities risk manager a position held for
the whole maximum hold period exits with reason `"max_hold_days"`, not the
claimed `"max_hold_time"`; the claim's cascade is wrong for the equities
manager. -/
theorem C1_counterexample :
    RiskManager.should_exit gemDefault 100 100 90 120 30 30 =
      (true, some "max_hold_days") ∧
    (true, some "max_hold_days") ≠ ((true, some "max_hold_time") : Bool × Option String) := by
  constructor
  · decide
  · decide

/-- C1, amended.  The crypto risk manager's `should_exit` applies, in
order: stop-loss, take-profit, max-hold (reason `"max_hold_time"`),
trailing stop (pnl > 15 % and price ≤ entry × 1.01), else no exit.  The
equities risk manager applies only the first three rules, its max-hold
reason is `"max_hold_days"`, and it has no trailing-stop rule: past the
first three guards it always answers `(false, none)`. -/
theorem C1_exit_cascade (rmc : CryptoRiskManager) (rmg : RiskManager)
    (c e s t hh : ℚ) (d m : ℤ) :
    (c ≤ s →
      rmc.should_exit c e s t hh = (true, some "stop_loss") ∧
      rmg.should_exit c e s t d m = (true, some "stop_loss")) ∧
    (¬ c ≤ s → c ≥ t →
      rmc.should_exit c e s t hh = (true, some "take_profit") ∧
      rmg.should_exit c e s t d m = (true, some "take_profit")) ∧
    (¬ c ≤ s → ¬ c ≥ t → hh ≥ rmc.max_hold_hours →
      rmc.should_exit c e s t hh = (true, some "max_hold_time")) ∧
    (¬ c ≤ s → ¬ c ≥ t → d ≥ m →
      rmg.should_exit c e s t d m = (true, some "max_hold_days")) ∧
    (¬ c ≤ s → ¬ c ≥ t → ¬ hh ≥ rmc.max_hold_hours →
      (c - e) / e > 15/100 → c ≤ e * (101/100) →
      rmc.should_exit c e s t hh = (true, some "trailing_stop")) ∧
    (¬ c ≤ s → ¬ c ≥ t → ¬ hh ≥ rmc.max_hold_hours →
      ¬ ((c - e) / e > 15/100 ∧ c ≤ e * (101/100)) →
      rmc.should_exit c e s t hh = (false, none)) ∧
    (¬ c ≤ s → ¬ c ≥ t → ¬ d ≥ m →
      rmg.should_exit c e s t d m = (false, none)) := by
  refine ⟨?_, ?_, ?_, ?_, ?_, ?_, ?_⟩ <;>
    intros <;>
    · simp only [CryptoRiskManager.should_exit, RiskManager.should_exit]
      split_ifs <;> simp_all

/-- C1, witness: the stop-loss rule fires on both managers at a concrete
price below the stop. -/
theorem C1_exit_cascade_witness :
    CryptoRiskManager.should_exit cryptoDefault 80 100 90 120 0 =
      (true, some "stop_loss") ∧
    RiskManager.should_exit gemDefault 80 100 90 120 0 30 =
      (true, some "stop_loss") :=
  (C1_exit_cascade cryptoDefault gemDefault 80 100 90 120 0 0 30).1 (by norm_num)

/-- In `l.zip (l.map f)` every pair is of the form `(a, f a)`. -/
theorem zip_map_snd {α β : Type} (f : α → β) :
    ∀ (l : List α) (p : α × β), p ∈ l.zip (l.map f) → p.2 = f p.1 := by
  intro l
  induction l with
  | nil => intro p hp; simp at hp
  | cons a t ih =>
    intro p hp
    simp only [List.map_cons, List.zip_cons_cons, List.mem_cons] at hp
    rcases hp with h | h
    · rw [h]
    · exact ih p h

/-- Replacing the row with primary key `i` makes the lookup of `i` return
the replacement, provided the lookup previously found some row. -/
theorem find_commitRow :
    ∀ (db : List TradeRecommendation) (i : ℕ) (r r' : TradeRecommendation),
      r'.id = i → get_recommendation_by_id db i = some r →
      get_recommendation_by_id (commitRow db i r') i = some r' := by
  intro db i r r' hid
  induction db with
  | nil => intro h; simp [get_recommendation_by_id] at h
  | cons a t ih =>
    intro h
    simp only [get_recommendation_by_id, commitRow, List.map_cons] at *
    by_cases ha : (a.id == i) = true
    · rw [if_pos ha]
      simp [List.find?_cons, hid]
    · rw [if_neg ha]
      have ha' : (a.id == i) = false := by simpa using ha
      simp only [List.find?_cons, ha'] at h ⊢
      exact ih h

/-- C3.  The lifecycle is strict: approval can only succeed on a pending,
unexpired recommendation and fails whenever `now > expires_at`; rejection
can only succeed on a pending one; execution can only succeed on an
approved one; approving an approved recommendation and rejecting an
executed one are refused. -/
theorem C3_lifecycle_strict (db : List TradeRecommendation) (now : ℚ)
    (ib : IBClientModel) (i : ℕ) (reason : Option String)
    (r : TradeRecommendation)
    (hfind : get_recommendation_by_id db i = some r) :
    ((approve_recommendation db now i).1.isSome →
      r.status = RecommendationStatus.pending ∧ ¬ r.expires_at < now) ∧
    (r.expires_at < now → (approve_recommendation db now i).1 = none) ∧
    ((reject_recommendation db now i reason).1.isSome →
      r.status = RecommendationStatus.pending) ∧
    ((execute_recommendation db now ib i).1.success = true →
      r.status = RecommendationStatus.approved) ∧
    (r.status = RecommendationStatus.approved →
      (approve_recommendation db now i).1 = none) ∧
    (r.status = RecommendationStatus.executed →
      (reject_recommendation db now i reason).1 = none) := by
  refine ⟨?_, ?_, ?_, ?_, ?_, ?_⟩
  · intro hs
    by_cases hp : r.status = RecommendationStatus.pending
    · by_cases hex : r.expires_at < now
      · simp [approve_recommendation, hfind, hp, hex] at hs
      · exact ⟨hp, hex⟩
    · simp [approve_recommendation, hfind, hp] at hs
  · intro hex
    by_cases hp : r.status = RecommendationStatus.pending
    · simp [approve_recommendation, hfind, hp, hex]
    · simp [approve_recommendation, hfind, hp]
  · intro hs
    by_cases hp : r.status = RecommendationStatus.pending
    · exact hp
    · simp [reject_recommendation, hfind, hp] at hs
  · intro hs
    by_cases hap : r.status = RecommendationStatus.approved
    · exact hap
    · simp [execute_recommendation, hfind, hap] at hs
  · intro hap
    simp [approve_recommendation, hfind, hap]
  · intro hex
    simp [reject_recommendation, hfind, hex]

/-- C3, witness: approving an already-approved recommendation is
refused. -/
theorem C3_lifecycle_strict_witness :
    (approve_recommendation [c3Approved] 5 1).1 = none :=
  (C3_lifecycle_strict [c3Approved] 5 c3Broker 1 none c3Approved
    rfl).2.2.2.2.1 rfl

/-- C4, counterexample.  The sweep leaves an approved recommendation
whose expiry has passed untouched (the claim says it ends up expired):
the bulk update only matches pending rows. -/
theorem C4_counterexample :
    (expire_old_recommendations [c4ApprovedStale] 1).1 = [c4ApprovedStale] ∧
    c4ApprovedStale.expires_at < 1 ∧
    c4ApprovedStale.status = RecommendationStatus.approved ∧
    RecommendationStatus.approved ≠ RecommendationStatus.expired := by
  refine ⟨rfl, by decide, rfl, by decide⟩

/-- C4, amended.  After the sweep at time `now` every recommendation that
was pending with `expires_at < now` has status expired, and every other
recommendation — approved ones included, whatever their expiry — is left
exactly as it was. -/
theorem C4_sweep (db : List TradeRecommendation) (now : ℚ) :
    (expire_old_recommendations db now).1.length = db.length ∧
    ∀ p ∈ db.zip (expire_old_recommendations db now).1,
      (p.1.status = RecommendationStatus.pending ∧ p.1.expires_at < now →
        p.2 = { p.1 with status := RecommendationStatus.expired }) ∧
      (¬ (p.1.status = RecommendationStatus.pending ∧ p.1.expires_at < now) →
        p.2 = p.1) := by
  constructor
  · simp [expire_old_recommendations]
  · intro p hp
    have hmap : (expire_old_recommendations db now).1 =
        db.map (fun r =>
          if r.status = RecommendationStatus.pending ∧ r.expires_at < now
          then { r with status := RecommendationStatus.expired } else r) := rfl
    rw [hmap] at hp
    have h2 := zip_map_snd
      (fun r => if r.status = RecommendationStatus.pending ∧ r.expires_at < now
        then { r with status := RecommendationStatus.expired } else r) db p hp
    constructor
    · intro hc
      rw [h2]
      simp only [if_pos hc]
    · intro hc
      rw [h2]
      simp only [if_neg hc]

/-- C4, witness: on a pending, stale recommendation the sweep sets the
status to expired. -/
theorem C4_sweep_witness :
    (c4PendingStale.status = RecommendationStatus.pending ∧
      c4PendingStale.expires_at < 1) ∧
    (c4PendingStale,
      ({ c4PendingStale with status := RecommendationStatus.expired } :
        TradeRecommendation)).2 =
      { c4PendingStale with status := RecommendationStatus.expired } :=
  ⟨by decide, ((C4_sweep [c4PendingStale] 1).2 _ (by decide)).1 (by decide)⟩

/-- C10.  A failed approval of a pending but expired recommendation is
not state-preserving: it returns `none` and commits the row with status
expired, so the lookup afterwards sees the expired row. -/
theorem C10_approve_expired_mutates (db : List TradeRecommendation)
    (now : ℚ) (i : ℕ) (r : TradeRecommendation)
    (hfind : get_recommendation_by_id db i = some r)
    (hp : r.status = RecommendationStatus.pending)
    (he : r.expires_at < now) :
    approve_recommendation db now i =
      (none, commitRow db i { r with status := RecommendationStatus.expired }) ∧
    get_recommendation_by_id (approve_recommendation db now i).2 i =
      some { r with status := RecommendationStatus.expired } := by
  have hid : r.id = i := by
    have hfind' : List.find? (fun x => x.id == i) db = some r := hfind
    have h := List.find?_some hfind'
    simpa using h
  have h1 : approve_recommendation db now i =
      (none, commitRow db i { r with status := RecommendationStatus.expired }) := by
    simp [approve_recommendation, hfind, hp, he]
  refine ⟨h1, ?_⟩
  rw [h1]
  exact find_commitRow db i r _ hid hfind

/-- C10, witness: a concrete pending recommendation past its expiry is
flipped to expired by the failing approval. -/
theorem C10_approve_expired_mutates_witness :
    (c10Pending.status = RecommendationStatus.pending ∧
      c10Pending.expires_at < 2) ∧
    approve_recommendation [c10Pending] 2 7 =
      (none, [{ c10Pending with status := RecommendationStatus.expired }]) := by
  refine ⟨by decide, ?_⟩
  have h := (C10_approve_expired_mutates [c10Pending] 2 7 c10Pending rfl rfl
    (by decide)).1
  simpa [commitRow] using h

/-- C2, counterexample.  With `max_position_pct = 0.6` the equities
`kelly_fraction` answers 0.44375, above the claim's clamp ceiling
`min(max_position_pct, 0.25) = 0.25`: the equities manager has no 0.25
cap. -/
theorem C2_counterexample :
    RiskManager.kelly_fraction { gemDefault with max_position_pct := 6/10 }
      (9/10) (4/10) (1/20) = 71/160 ∧
    ¬ (71/160 : ℚ) ≤ min (6/10 : ℚ) (25/100) := by
  constructor
  · norm_num [RiskManager.kelly_fraction, gemDefault]
  · norm_num

/-- C2, amended.  Both managers compute the spec's raw Kelly
((W/L)·p − (1−p))/(W/L), with L floored to the default stop-loss when
L ≤ 0, times the Kelly multiplier; the crypto manager clamps the result
to [0, min(max_position_pct, 0.15)], but the equities manager clamps only
to [0, max_position_pct] (no 0.25 ceiling).  On the S1 scenario
(allocated 10000, p = 0.6, W = 0.20, L = 0.08, multiplier 0.5,
max_position_pct = 0.25) the adjusted fraction is 0.22 and the Kelly
amount 10000 × 0.22 = 2200. -/
theorem C2_kelly_clamp (rmg : RiskManager) (rmc : CryptoRiskManager)
    (p W L : ℚ) :
    rmg.kelly_fraction p W L =
      max 0 (min (spec_kelly_raw p W L rmg.stop_loss_pct * rmg.kelly_multiplier)
        rmg.max_position_pct) ∧
    rmc.kelly_fraction p W L =
      max 0 (min (spec_kelly_raw p W L rmc.stop_loss_pct * rmc.kelly_multiplier)
        (min rmc.max_position_pct (15/100))) ∧
    gemDefault.kelly_fraction (3/5) (1/5) (2/25) = 11/50 ∧
    gemDefault.allocated_capital *
      gemDefault.kelly_fraction (3/5) (1/5) (2/25) = 2200 := by
  refine ⟨?_, ?_, ?_, ?_⟩
  · simp [RiskManager.kelly_fraction, spec_kelly_raw]
  · simp [CryptoRiskManager.kelly_fraction, spec_kelly_raw]
  · norm_num [RiskManager.kelly_fraction, gemDefault]
  · norm_num [RiskManager.kelly_fraction, gemDefault]

/-- C5, counterexample.  A wait that times out on a half-filled order
(every poll answers "open" with 1 of 2 filled) makes `execute_entry`
return `partially_filled` — but the cancel list is empty: the remainder of
the order is never cancelled, contrary to the claim. -/
theorem C5_counterexample :
    wait_for_fill (fun _ => some c5Waited) 60 = some c5Waited ∧
    execute_entry_settle "BTC-USD" 2 "market" c5Placed (some c5Waited) =
      (⟨"BTC-USD", "buy", "market", 2, 1, some 50,
        CryptoOrderStatus.partially_filled, some "ord1", "Partial fill"⟩,
       []) ∧
    ([] : List String) ≠ ["ord1"] := by
  refine ⟨rfl, by decide, by decide⟩

/-- C5, amended.  When the wait ends on an order that is not filled but
has a positive filled quantity, `execute_entry` returns a
`partially_filled` result carrying that order's filled quantity and
price, and issues no cancellation; cancellation happens only when
nothing filled at all. -/
theorem C5_partial_no_cancel (symbol : String) (quantity : ℚ)
    (order_type : String) (placed o : CryptoOrder)
    (h1 : o.status ≠ "filled") (h2 : 0 < o.filled_quantity) :
    execute_entry_settle symbol quantity order_type placed (some o) =
      (⟨symbol, "buy", order_type, quantity, o.filled_quantity,
        o.filled_price, CryptoOrderStatus.partially_filled, some o.id,
        "Partial fill"⟩, []) := by
  simp [execute_entry_settle, h1, h2]

/-- C5, witness: the amended settlement at the concrete half-filled
order. -/
theorem C5_partial_no_cancel_witness :
    (c5Waited.status ≠ "filled" ∧ 0 < c5Waited.filled_quantity) ∧
    execute_entry_settle "BTC-USD" 2 "market" c5Placed (some c5Waited) =
      (⟨"BTC-USD", "buy", "market", 2, c5Waited.filled_quantity,
        c5Waited.filled_price, CryptoOrderStatus.partially_filled,
        some c5Waited.id, "Partial fill"⟩, []) :=
  ⟨⟨by decide, by norm_num [c5Waited]⟩,
   C5_partial_no_cancel "BTC-USD" 2 "market" c5Placed c5Waited
     (by decide) (by norm_num [c5Waited])⟩

/-- C6, counterexample.  With the default shutdown threshold 45, a VIX of
exactly 45 does not shut trading down: on a first run (no prior regime)
`detect_regime` answers `normal_bull`, not the claimed
`defense_trigger` — the code's comparison is strict. -/
theorem C6_counterexample :
    settingsDefault.VIX_SHUTDOWN_THRESHOLD = 45 ∧
    detect_regime settingsDefault none 45 500 none = RegimeType.normal_bull ∧
    RegimeType.normal_bull ≠ RegimeType.defense_trigger := by
  refine ⟨rfl, ?_, by decide⟩
  norm_num [detect_regime, settingsDefault]

/-- C6, amended.  In every regime state a VIX strictly above the shutdown
threshold yields `defense_trigger`; at a VIX exactly equal to the default
threshold 45 the VIX rule does not fire (a first run answers
`normal_bull`). -/
theorem C6_vix_shutdown (s : Settings) (current_regime : Option Regime)
    (vix qqq : ℚ) (strike : Option ℚ)
    (h : vix > s.VIX_SHUTDOWN_THRESHOLD) :
    detect_regime s current_regime vix qqq strike =
      RegimeType.defense_trigger ∧
    (∀ (qqq2 : ℚ) (strike2 : Option ℚ),
      detect_regime settingsDefault none 45 qqq2 strike2 =
        RegimeType.normal_bull) := by
  constructor
  · simp [detect_regime, h]
  · intro qqq2 strike2
    norm_num [detect_regime, settingsDefault]

/-- C6, witness: VIX 46 forces `defense_trigger` even from a recovery
regime. -/
theorem C6_vix_shutdown_witness :
    detect_regime settingsDefault
      (some ⟨RegimeType.recovery_mode, some 400⟩) 46 500 none =
      RegimeType.defense_trigger :=
  (C6_vix_shutdown settingsDefault (some ⟨RegimeType.recovery_mode, some 400⟩)
    46 500 none (by norm_num [settingsDefault])).1

/-- C7, counterexample.  On a single neutral signal `_determine_trend`
answers strength 50, while the claim's formula
max(bull, bear)/total × 100 gives 0: in the tie case the code pins
strength to 50 instead. -/
theorem C7_counterexample :
    (TrendAnalyzer.determine_trend [c7Neutral]).2 = 50 ∧
    spec_strength [c7Neutral] = 0 ∧ (50 : ℚ) ≠ 0 := by
  refine ⟨rfl, ?_, by norm_num⟩
  have hb : List.countP (fun s => decide (s.signal = "bullish")) [c7Neutral] = 0 := rfl
  have hr : List.countP (fun s => decide (s.signal = "bearish")) [c7Neutral] = 0 := rfl
  simp only [spec_strength, hb, hr]
  norm_num

/-- C7, amended.  For a non-empty signal list the direction is the
majority vote (ties neutral); when the vote is not tied the strength is
max(bull, bear)/total × 100, but in the tie case the strength is the
constant 50; the score is
(50 + (bull/total − 0.5)·100) · (0.5 + strength/200) clamped to [0, 100],
with the code's strength. -/
theorem C7_trend_score (signals : List TrendSignal) (hne : signals ≠ []) :
    (signals.countP (fun s => s.signal = "bullish") >
        signals.countP (fun s => s.signal = "bearish") →
      TrendAnalyzer.determine_trend signals =
        (TrendDirection.bullish,
         (signals.countP (fun s => s.signal = "bullish") : ℚ) /
           signals.length * 100)) ∧
    (signals.countP (fun s => s.signal = "bearish") >
        signals.countP (fun s => s.signal = "bullish") →
      TrendAnalyzer.determine_trend signals =
        (TrendDirection.bearish,
         (signals.countP (fun s => s.signal = "bearish") : ℚ) /
           signals.length * 100)) ∧
    (signals.countP (fun s => s.signal = "bullish") =
        signals.countP (fun s => s.signal = "bearish") →
      TrendAnalyzer.determine_trend signals = (TrendDirection.neutral, 50)) ∧
    (signals.countP (fun s => s.signal = "bullish") ≠
        signals.countP (fun s => s.signal = "bearish") →
      (TrendAnalyzer.determine_trend signals).2 = spec_strength signals) ∧
    (∀ (d : TrendDirection) (strength : ℚ),
      TrendAnalyzer.calculate_score signals d strength =
        max 0 (min 100
          ((50 + ((signals.countP (fun s => s.signal = "bullish") : ℚ) /
              signals.length - 1/2) * 100) * (1/2 + strength / 200)))) := by
  refine ⟨?_, ?_, ?_, ?_, ?_⟩
  · intro hgt
    simp [TrendAnalyzer.determine_trend, hne, hgt]
  · intro hgt
    simp [TrendAnalyzer.determine_trend, hne, hgt, Nat.lt_asymm hgt]
  · intro heq
    simp [TrendAnalyzer.determine_trend, hne, heq]
  · intro hneq
    rcases Nat.lt_or_ge (signals.countP (fun s => s.signal = "bullish"))
        (signals.countP (fun s => s.signal = "bearish")) with hlt | hge
    · simp [TrendAnalyzer.determine_trend, hne, hlt, Nat.lt_asymm hlt,
        spec_strength, Nat.max_eq_right (Nat.le_of_lt hlt)]
    · have hgt : signals.countP (fun s => s.signal = "bearish") <
          signals.countP (fun s => s.signal = "bullish") :=
        Nat.lt_of_le_of_ne hge (fun hc => hneq hc.symm)
      simp [TrendAnalyzer.determine_trend, hne, hgt,
        spec_strength, Nat.max_eq_left (Nat.le_of_lt hgt)]
  · intro d strength
    simp [TrendAnalyzer.calculate_score, hne]

/-- C7, witness: one bullish signal gives a bullish trend of strength
100. -/
theorem C7_trend_score_witness :
    TrendAnalyzer.determine_trend [c7Bullish] =
      (TrendDirection.bullish, 100) := by
  have h := (C7_trend_score [c7Bullish] (by decide)).1 (by decide)
  have hb : List.countP (fun s => decide (s.signal = "bullish")) [c7Bullish] = 1 := rfl
  rw [h, hb]
  norm_num

/-- The analysis of a series of length ≥ 21 carries
`ema_9 = _calculate_ema(prices, 9)` (the insufficient-data guard does not
fire). -/
theorem analyze_ema9 (cfg : TrendAnalyzerConfig) (sqrtO : ℚ → ℚ)
    (symbol : String) (prices : List ℚ) (volumes : Option (List ℚ))
    (current : Option ℚ) (h : 21 ≤ prices.length) :
    (TrendAnalyzer.analyze cfg sqrtO symbol prices volumes current).ema_9 =
      TrendAnalyzer.calculate_ema prices 9 := by
  have hg : ¬ (prices = [] ∨ prices.length < 21) := by
    push_neg
    constructor
    · intro he
      rw [he] at h
      simp at h
    · omega
  rw [TrendAnalyzer.analyze, if_neg hg]

/-- C8, counterexample.  A price series of length exactly 20 — the
gateway's guaranteed minimum, which the claim says yields a full
analysis — still gets the insufficient-data envelope: the analyzer's
guard is `len(prices) < 21`. -/
theorem C8_counterexample :
    (List.replicate 20 (1 : ℚ)).length = 20 ∧
    TrendAnalyzer.analyze trendConfigDefault (fun _ => 0) "BTC-USD"
      (List.replicate 20 1) none none =
      TrendAnalyzer.empty_analysis "BTC-USD" 0 := by
  refine ⟨by simp, by decide⟩

/-- C8, amended.  `analyze` returns the insufficient-data envelope for
every price series shorter than 21 points (so for 19- and 20-point
series), and for every series of at least 21 points it returns a full
analysis, never equal to any insufficient-data envelope. -/
theorem C8_envelope_threshold (cfg : TrendAnalyzerConfig) (sqrtO : ℚ → ℚ)
    (symbol : String) (prices : List ℚ) (volumes : Option (List ℚ))
    (current : Option ℚ) :
    (prices.length < 21 →
      TrendAnalyzer.analyze cfg sqrtO symbol prices volumes current =
        TrendAnalyzer.empty_analysis symbol (pyOr current 0)) ∧
    (21 ≤ prices.length →
      ∀ (s2 : String) (p2 : ℚ),
        TrendAnalyzer.analyze cfg sqrtO symbol prices volumes current ≠
          TrendAnalyzer.empty_analysis s2 p2) := by
  constructor
  · intro h
    rw [TrendAnalyzer.analyze, if_pos (Or.inr h)]
  · intro h s2 p2 heq
    have h9 := analyze_ema9 cfg sqrtO symbol prices volumes current h
    rw [heq] at h9
    have hnone : (none : Option ℚ) = TrendAnalyzer.calculate_ema prices 9 := h9
    rw [TrendAnalyzer.calculate_ema, if_neg (by omega)] at hnone
    exact Option.noConfusion hnone

/-- C8, witness: a 21-point series is analysed in full (its result is not
the envelope). -/
theorem C8_envelope_threshold_witness :
    21 ≤ (List.replicate 21 (1 : ℚ)).length ∧
    TrendAnalyzer.analyze trendConfigDefault (fun _ => 0) "BTC-USD"
      (List.replicate 21 1) none none ≠
      TrendAnalyzer.empty_analysis "BTC-USD" 0 :=
  ⟨by simp,
   (C8_envelope_threshold trendConfigDefault (fun _ => 0) "BTC-USD"
     (List.replicate 21 1) none none).2 (by simp) "BTC-USD" 0⟩

/-- C9.  Exiting exactly at the stop produced by `calculate_stop_loss`
reports a stop-loss exit, and the S2 scenario holds on the default
equities manager: stop(100) = 92, target(100, 92) = 120,
exit at 91.99 ⇒ stop_loss, exit at 120 ⇒ take_profit. -/
theorem C9_stop_roundtrip :
    (∀ (rm : RiskManager) (entry tp : ℚ) (d m : ℤ),
      0 < entry → 0 < rm.stop_loss_pct → rm.stop_loss_pct < 1 →
      rm.should_exit (rm.calculate_stop_loss entry none) entry
        (rm.calculate_stop_loss entry none) tp d m = (true, some "stop_loss")) ∧
    RiskManager.calculate_stop_loss gemDefault 100 none = 92 ∧
    RiskManager.calculate_take_profit gemDefault 100 (some 92) = 120 ∧
    RiskManager.should_exit gemDefault (9199/100) 100 92 120 0 30 =
      (true, some "stop_loss") ∧
    RiskManager.should_exit gemDefault 120 100 92 120 0 30 =
      (true, some "take_profit") := by
  refine ⟨?_, ?_, ?_, ?_, ?_⟩
  · intro rm entry tp d m _ _ _
    simp [RiskManager.should_exit]
  · norm_num [RiskManager.calculate_stop_loss, gemDefault, pyTruthy]
  · norm_num [RiskManager.calculate_take_profit, gemDefault, pyTruthy]
  · norm_num [RiskManager.should_exit]
  · norm_num [RiskManager.should_exit]

/-- C9, witness: the universally quantified conjunct at the default
equities manager with entry 100 (stop 92). -/
theorem C9_stop_roundtrip_witness :
    RiskManager.should_exit gemDefault
      (RiskManager.calculate_stop_loss gemDefault 100 none) 100
      (RiskManager.calculate_stop_loss gemDefault 100 none) 120 0 30 =
      (true, some "stop_loss") :=
  C9_stop_roundtrip.1 gemDefault 100 120 0 30 (by norm_num)
    (by norm_num [gemDefault]) (by norm_num [gemDefault])
